import Mathlib

/-!
Verification development for the yt-downloader repository.

The definitions below are shallow embeddings of the TypeScript source:
the error taxonomy (types/errors), the format-selection logic, filename
sanitization, the progress accounting, the streaming phase of
`downloadVideo` modelled as an explicit event-driven state machine, and
the console logger.  Machine integers are modelled as `Nat`, JavaScript
float division as division in `ℚ`, fallible code as `Except`.
-/

namespace YtDownloader

/-- The closed set of requested output kinds, from types.ts
(`type VideoFormat = "audio" | "video"`). -/
inductive VideoFormat where
  | audio
  | video
  deriving DecidableEq, Repr

/-- One remote-offered encoding as used by the pipeline: only the `itag`
and optional `contentLength` fields of a play-dl format object are ever
inspected by the code. `contentLength` is a decimal string in the source;
its parsed value is modelled directly as `Option Nat`. -/
structure StreamFormat where
  itag : Nat
  contentLength : Option Nat
  deriving DecidableEq, Repr

/-- The error taxonomy of types/errors.ts, flattened: every class extends
`YouTubeDownloaderError` and only sets `name`, `code` and `details`.
`details` is the message of the causing `Error` when one is attached. -/
structure YouTubeDownloaderError where
  name : String
  message : String
  code : String
  details : Option String
  deriving DecidableEq, Repr

/-- Constructor of class `VideoInfoError` (code `VIDEO_INFO_ERROR`). -/
def VideoInfoError (message : String) (details : Option String) : YouTubeDownloaderError :=
  ⟨"VideoInfoError", message, "VIDEO_INFO_ERROR", details⟩

/-- Constructor of class `DownloadError` (code `DOWNLOAD_ERROR`). -/
def DownloadError (message : String) (details : Option String) : YouTubeDownloaderError :=
  ⟨"DownloadError", message, "DOWNLOAD_ERROR", details⟩

/-- Constructor of class `FileSystemError` (code `FILE_SYSTEM_ERROR`). -/
def FileSystemError (message : String) (details : Option String) : YouTubeDownloaderError :=
  ⟨"FileSystemError", message, "FILE_SYSTEM_ERROR", details⟩

/-- Constructor of class `ValidationError` (code `VALIDATION_ERROR`). -/
def ValidationError (message : String) (details : Option String) : YouTubeDownloaderError :=
  ⟨"ValidationError", message, "VALIDATION_ERROR", details⟩

/-- The class names declared in types/errors.ts.  This is the complete
taxonomy: any error surfaced by the program carries one of these names. -/
def errorClassNames : List String :=
  ["YouTubeDownloaderError", "VideoInfoError", "DownloadError",
   "FileSystemError", "ValidationError"]

/-! ## Format selection (part_003, variant with priority lists)

The audio priority list `[251, 140, 250, 249]` and the video priority
list, both scanned with `find(q => availableQualities.includes(q))` and
defaulted with `|| 140` / `|| 18`; afterwards the chosen itag is looked
up in the format set and a `DownloadError` is thrown when absent. -/

/-- Audio quality priority: 251 (Opus) > 140 (m4a) > 250 > 249. -/
def audioQualities : List Nat := [251, 140, 250, 249]

/-- Video quality priority (new format codes), highest resolution first,
ending at the 360p fallback itag 18. -/
def videoQualities : List Nat :=
  [303, 299, 399, 136, 247, 298, 135, 244, 134, 243, 18]

/-- The priority list the selector scans for a given requested kind. -/
def priorities : VideoFormat → List Nat
  | VideoFormat.audio => audioQualities
  | VideoFormat.video => videoQualities

/-- The fallback itag used when no priority entry is available
(`|| 140` for audio, `|| 18` for video). -/
def fallbackItag : VideoFormat → Nat
  | VideoFormat.audio => 140
  | VideoFormat.video => 18

/-- The itag chosen for a kind given the list of available itags:
first priority-list entry contained in `available`, else the fallback. -/
def selectQuality (kind : VideoFormat) (available : List Nat) : Nat :=
  ((priorities kind).find? (fun q => available.contains q)).getD (fallbackItag kind)

/-- The error thrown when the chosen itag has no matching format:
`new DownloadError("Selected quality format not available", new Error())`. -/
def selectionUnavailableError : YouTubeDownloaderError :=
  DownloadError "Selected quality format not available" (some "")

/-- Full format selection of the part_003 pipeline: compute the available
itags, pick a quality, then look the quality up in the format set; throw
`selectionUnavailableError` when it is absent. -/
def chooseFormat (kind : VideoFormat) (fmts : List StreamFormat) :
    Except YouTubeDownloaderError StreamFormat :=
  let available := fmts.map (fun f => f.itag)
  let quality := selectQuality kind available
  match fmts.find? (fun f => f.itag == quality) with
  | some f => Except.ok f
  | none => Except.error selectionUnavailableError

/-! ## Filename sanitization (src/index.ts)

`info.video_details.title ? title.replace(/[/\\?%*:|"<>]/g, "-").substring(0, 200) : "video"`. -/

/-- The path-hostile characters of the sanitization regex. -/
def isPathHostile (c : Char) : Bool :=
  c = '/' || c = '\\' || c = '?' || c = '%' || c = '*' ||
  c = ':' || c = '|' || c = '"' || c = '<' || c = '>'

/-- Per-character action of `.replace(/[/\\?%*:|"<>]/g, "-")`. -/
def sanitizeChar (c : Char) : Char :=
  if isPathHostile c then '-' else c

/-- The sanitized base filename: an empty (falsy) title yields "video";
otherwise every path-hostile character is replaced by a dash and the
result is truncated with `.substring(0, 200)`. -/
def sanitizeTitle (title : String) : String :=
  if title = "" then "video"
  else ((title.data.map sanitizeChar).take 200).asString

/-- The output filename: sanitized base plus the extension implied by the
requested kind (`mp3` for audio, `mp4` for video). -/
def outputFilename (title : String) (kind : VideoFormat) : String :=
  sanitizeTitle title ++ "." ++ (match kind with
    | VideoFormat.audio => "mp3"
    | VideoFormat.video => "mp4")

/-! ## Progress accounting (part_003, variant with priority lists)

`totalBytes = selectedFormat.contentLength ? parseInt(...) :
 (durationInSec * (audio ? 128000 : 512000)) / 8`, and `updateProgress`
always renders `percent = (downloadedBytes / totalBytes) * 100`. -/

/-- The assumed bitrate when content-length is absent: 128000 bit/s for
audio, 512000 bit/s for video. -/
def assumedBitrate : VideoFormat → Nat
  | VideoFormat.audio => 128000
  | VideoFormat.video => 512000

/-- `totalBytes` of the part_003 pipeline: the parsed content-length when
present, otherwise an estimate from duration and an assumed bitrate. -/
def totalBytesOf (kind : VideoFormat) (contentLength : Option Nat)
    (durationInSec : Nat) : Nat :=
  match contentLength with
  | some n => n
  | none => durationInSec * assumedBitrate kind / 8

/-- One rendered progress line of part_003's `updateProgress`: a percent
value (float division modelled in `ℚ`) plus the raw byte counters. -/
structure ProgressLine where
  percent : ℚ
  downloadedBytes : Nat
  totalBytes : Nat
  deriving DecidableEq, Repr

/-- part_003's `updateProgress` body: the percentage is computed
unconditionally from whatever `totalBytes` was chosen. -/
def updateProgress (downloadedBytes totalBytes : Nat) : ProgressLine :=
  ⟨(downloadedBytes : ℚ) / (totalBytes : ℚ) * 100, downloadedBytes, totalBytes⟩

/-! ## The streaming phase of `downloadVideo` (src/index.ts, first variant)

Once the write stream is created the file exists and the 1-second
progress interval is running.  Arriving data chunks increment
`downloadedBytes`; the run settles through exactly one of the three
registered handlers: `writeStream.on("finish")`, `writeStream.on("error")`
(clears the interval, rejects `FileSystemError`, does not touch the file)
or `videoStream.stream.on("error")` (clears the interval, unlinks the
file, propagates `DownloadError`). -/

/-- Per-request context fixed before streaming begins: the derived
filename and path, the requested kind, and the elapsed seconds the clock
will report at settlement. -/
structure StreamCtx where
  filename : String
  filePath : String
  elapsedSeconds : Nat
  format : VideoFormat
  deriving DecidableEq, Repr

/-- The `DownloadResult` record of types.ts. -/
structure DownloadResult where
  filename : String
  filePath : String
  duration : Nat
  format : VideoFormat
  size : Nat
  deriving DecidableEq, Repr

/-- Observable state of one streaming run: whether the output file
currently exists on disk, whether the 1-second progress interval is still
scheduled, the running byte counter, and the settlement (resolution or
rejection) once one of the terminal handlers has fired. -/
structure PipeState where
  fileExists : Bool
  timerActive : Bool
  downloadedBytes : Nat
  settled : Option (Except YouTubeDownloaderError DownloadResult)
  deriving Repr

/-- State right after `fs.createWriteStream(filePath)` and
`setInterval(..., 1000)`: the file exists, the timer runs, nothing
received, nothing settled. -/
def initialPipeState : PipeState :=
  ⟨true, true, 0, none⟩

/-- Handler `videoStream.stream.on("data", chunk => downloadedBytes += chunk.length)`. -/
def onData (s : PipeState) (chunkLength : Nat) : PipeState :=
  { s with downloadedBytes := s.downloadedBytes + chunkLength }

/-- Handler `writeStream.on("finish")`: clear the interval and resolve a
`DownloadResult` whose `size` is the current byte counter.  The file is
left in place. -/
def onFinish (ctx : StreamCtx) (s : PipeState) : PipeState :=
  { s with timerActive := false,
           settled := some (Except.ok
             ⟨ctx.filename, ctx.filePath, ctx.elapsedSeconds, ctx.format,
              s.downloadedBytes⟩) }

/-- Handler `writeStream.on("error")`: clear the interval and reject with
`new FileSystemError("Write stream error", error)`.  No cleanup of the
partially written file is performed on this path. -/
def onSinkError (s : PipeState) (cause : String) : PipeState :=
  { s with timerActive := false,
           settled := some (Except.error
             (FileSystemError "Write stream error" (some cause))) }

/-- Handler `videoStream.stream.on("error")`: clear the interval, unlink
the partial file if it exists, and propagate
`new DownloadError("Stream error occurred", error)`. -/
def onStreamError (s : PipeState) (cause : String) : PipeState :=
  { s with timerActive := false,
           fileExists := false,
           settled := some (Except.error
             (DownloadError "Stream error occurred" (some cause))) }

/-- The event that settles a streaming run: a successful sink finish, a
sink (write) error, or a source-stream error, the latter two carrying the
underlying cause's message. -/
inductive Terminal where
  | finish
  | sinkError (cause : String)
  | streamError (cause : String)
  deriving DecidableEq, Repr

/-- One whole streaming run: the data chunks received (by length), then
the terminal event's handler. -/
def runStreaming (ctx : StreamCtx) (chunks : List Nat) (t : Terminal) :
    PipeState :=
  let s := chunks.foldl onData initialPipeState
  match t with
  | Terminal.finish => onFinish ctx s
  | Terminal.sinkError cause => onSinkError s cause
  | Terminal.streamError cause => onStreamError s cause

/-! ## URL validation (src/index.ts `validateYouTubeUrl`)

The external `play-dl` `validate` call either returns a label string or
throws; it is modelled as a function parameter. -/

/-- A JavaScript thrown value as the catch clause discriminates it: an
instance of the typed taxonomy, a plain `Error` (carried by message), or
any other value (carried by its `String(...)` rendering). -/
inductive Thrown where
  | typed (e : YouTubeDownloaderError)
  | plainError (message : String)
  | other (rendering : String)
  deriving DecidableEq, Repr

/-- Body of the `try` block of `validateYouTubeUrl`: an empty (falsy) URL
throws `new ValidationError("URL cannot be empty")`; otherwise the result
of the external `validate` call is compared against "yt_video", and a
throwing `validate` propagates its thrown value unchanged. -/
def validateYouTubeUrlBody (validate : String → Except Thrown String)
    (url : String) : Except Thrown Bool :=
  if url = "" then
    Except.error (Thrown.typed (ValidationError "URL cannot be empty" none))
  else
    match validate url with
    | Except.ok label => Except.ok (label == "yt_video")
    | Except.error e => Except.error e

/-- The whole `validateYouTubeUrl`: the surrounding `catch` logs any
thrown error and returns `false`, so the caller only ever sees a Bool. -/
def validateYouTubeUrl (validate : String → Except Thrown String)
    (url : String) : Bool :=
  match validateYouTubeUrlBody validate url with
  | Except.ok b => b
  | Except.error _ => false

/-! ## The catch clause of `downloadVideo` (src/index.ts)

`if (error instanceof YouTubeDownloaderError) throw error; else if
(error instanceof Error) throw new DownloadError("Download failed with
unknown error", error); else throw new DownloadError(..., new
Error(String(error)))`. -/

/-- The catch clause of `downloadVideo`: typed errors are rethrown
unchanged; everything else is wrapped in a `DownloadError` whose details
carry the original cause (for non-`Error` values, its stringification). -/
def catchWrap : Thrown → YouTubeDownloaderError
  | Thrown.typed e => e
  | Thrown.plainError m => DownloadError "Download failed with unknown error" (some m)
  | Thrown.other s => DownloadError "Download failed with unknown error" (some s)

/-! ## The console logger (utils/logger.ts)

`logToConsole` prints the formatted line, and additionally prints the
details payload when the entry has one and `debugMode` is set.  The
`debugMode` flag is `process.env.NODE_ENV === "development"`. -/

/-- The log levels of utils/logger.ts. -/
inductive LogLevel where
  | info
  | warn
  | error
  | debug
  | success
  deriving DecidableEq, Repr

/-- One entry of the logger's in-memory `logs` array (the timestamp is
supplied by the caller of the model, standing for `new Date()`). -/
structure LogEntry where
  timestamp : String
  level : LogLevel
  message : String
  details : Option String
  deriving DecidableEq, Repr

/-- A line printed to the console: either a formatted log message or the
extra details payload printed right after it in debug mode. -/
inductive ConsoleLine where
  | message (entry : LogEntry)
  | detailsLine (payload : String)
  deriving DecidableEq, Repr

/-- `logToConsole`: print the formatted message; when the entry carries
details and `debugMode` is on, also print the details payload. -/
def logToConsole (debugMode : Bool) (entry : LogEntry) : List ConsoleLine :=
  match entry.details with
  | some d =>
      if debugMode then [ConsoleLine.message entry, ConsoleLine.detailsLine d]
      else [ConsoleLine.message entry]
  | none => [ConsoleLine.message entry]

/-- The console lines produced by a sequence of logging calls, in call
order. -/
def consoleOutput (debugMode : Bool) (calls : List LogEntry) :
    List ConsoleLine :=
  calls.foldr (fun c acc => logToConsole debugMode c ++ acc) []

/-- A whole run of public logging calls (`info`, `warn`, `error`,
`success`): each is recorded in the in-memory `logs` array via
`createLogEntry` and printed via `logToConsole`.  The argument
normalization of `error(...)` happens before this point and does not
depend on `debugMode`, so a call is modelled by the entry it creates.
The result is the final `logs` state and the console output. -/
def processCalls (debugMode : Bool) (calls : List LogEntry) :
    List LogEntry × List ConsoleLine :=
  (calls, consoleOutput debugMode calls)

/-- Whether a console line is an extra debug-details payload. -/
def isDetailsLine : ConsoleLine → Bool
  | ConsoleLine.detailsLine _ => true
  | ConsoleLine.message _ => false

/-! ## Helper lemmas -/

/-- Folding the data handler over a chunk list only advances the byte
counter, by the total length of the chunks. -/
theorem foldl_onData_eq (chunks : List Nat) (s : PipeState) :
    chunks.foldl onData s =
      { s with downloadedBytes := s.downloadedBytes + chunks.sum } := by
  induction chunks generalizing s with
  | nil => rfl
  | cons c cs ih =>
      simp [List.foldl_cons, onData, ih, Nat.add_assoc]

/-- The `|| fallback` default of the selection is itself a member of the
priority list it defaults (140 for audio, 18 for video). -/
theorem fallbackItag_mem_priorities (kind : VideoFormat) :
    fallbackItag kind ∈ priorities kind := by
  cases kind <;> simp [fallbackItag, priorities, audioQualities, videoQualities]

/-! ## Claims -/

/-- Claim C1, counterexample: a request that fails with a sink (write)
error after one 5-byte chunk settles with the typed `FileSystemError`,
yet the partially written output file still exists — the claim that every
failure after file creation deletes the file is false on the code. -/
theorem C1_sink_error_leaves_file :
    (runStreaming ⟨"f.mp3", "videos/f.mp3", 3, VideoFormat.audio⟩ [5]
        (Terminal.sinkError "disk full")).fileExists = true ∧
    (runStreaming ⟨"f.mp3", "videos/f.mp3", 3, VideoFormat.audio⟩ [5]
        (Terminal.sinkError "disk full")).settled =
      some (Except.error (FileSystemError "Write stream error" (some "disk full"))) :=
  ⟨rfl, rfl⟩

/-- Claim C1, amended: cleanup of the partial output file happens on the
source-stream error path only — there the file is deleted and the typed
`DownloadError` propagated — while on a sink (write) error the typed
`FileSystemError` is propagated with the partial file left in place, so a
file can survive a failed request. -/
theorem C1_cleanup_only_on_stream_error (ctx : StreamCtx) (chunks : List Nat)
    (cause : String) :
    (runStreaming ctx chunks (Terminal.streamError cause)).fileExists = false ∧
    (runStreaming ctx chunks (Terminal.streamError cause)).settled =
      some (Except.error (DownloadError "Stream error occurred" (some cause))) ∧
    (runStreaming ctx chunks (Terminal.sinkError cause)).fileExists = true ∧
    (runStreaming ctx chunks (Terminal.sinkError cause)).settled =
      some (Except.error (FileSystemError "Write stream error" (some cause))) := by
  refine ⟨rfl, rfl, ?_, rfl⟩
  simp [runStreaming, onSinkError, foldl_onData_eq, initialPipeState]

/-- Claim C1 amended, witness at a concrete run. -/
theorem C1_cleanup_only_on_stream_error_witness :
    (runStreaming ⟨"f.mp3", "videos/f.mp3", 3, VideoFormat.audio⟩ [5]
        (Terminal.streamError "reset")).fileExists = false :=
  (C1_cleanup_only_on_stream_error ⟨"f.mp3", "videos/f.mp3", 3, VideoFormat.audio⟩
    [5] "reset").1

/-- Claim C7: for every successful run, the `size` field of the resolved
`DownloadResult` equals the sum of the lengths of all chunks received
from the source stream. -/
theorem C7_size_eq_sum_of_chunks (ctx : StreamCtx) (chunks : List Nat) :
    ∃ r : DownloadResult,
      (runStreaming ctx chunks Terminal.finish).settled = some (Except.ok r) ∧
      r.size = chunks.sum := by
  refine ⟨⟨ctx.filename, ctx.filePath, ctx.elapsedSeconds, ctx.format,
    chunks.sum⟩, ?_, rfl⟩
  simp [runStreaming, onFinish, foldl_onData_eq, initialPipeState]

/-- Claim C8: on every exit path out of streaming — successful sink
finish, sink (write) error, and source-stream error — the 1-second
progress interval is cleared, so the run never settles with the periodic
task still active. -/
theorem C8_timer_cancelled_on_every_exit (ctx : StreamCtx)
    (chunks : List Nat) (t : Terminal) :
    (runStreaming ctx chunks t).timerActive = false := by
  cases t <;> rfl

/-- Claim C2: whenever the available format set contains formats with
itag 140 and itag 251, the audio selector picks a format with itag 251
(first entry of the audio priority list), not 140. -/
theorem C2_audio_prefers_251 (fmts : List StreamFormat)
    (h140 : ∃ f ∈ fmts, f.itag = 140)
    (h251 : ∃ f ∈ fmts, f.itag = 251) :
    ∃ g : StreamFormat, chooseFormat VideoFormat.audio fmts = Except.ok g ∧
      g.itag = 251 := by
  obtain ⟨f, hf, hfi⟩ := h251
  have hmem : (251 : Nat) ∈ fmts.map (fun f => f.itag) :=
    List.mem_map.mpr ⟨f, hf, hfi⟩
  have hcont : (fmts.map (fun f => f.itag)).contains 251 = true := by
    simpa using hmem
  have hfind : ((priorities VideoFormat.audio).find?
      (fun q => (fmts.map (fun f => f.itag)).contains q)) = some 251 :=
    List.find?_cons_of_pos _ hcont
  have hsel : selectQuality VideoFormat.audio (fmts.map (fun f => f.itag)) = 251 := by
    simp only [selectQuality]
    rw [hfind]
    rfl
  have hx : ∃ g ∈ fmts, (fun f : StreamFormat => f.itag == (251 : Nat)) g = true :=
    ⟨f, hf, by simp [hfi]⟩
  have hiss : (fmts.find? (fun f => f.itag == (251 : Nat))).isSome :=
    List.find?_isSome.mpr hx
  obtain ⟨g, hg⟩ := Option.isSome_iff_exists.mp hiss
  have hpg := List.find?_some hg
  refine ⟨g, ?_, by simpa using hpg⟩
  simp only [chooseFormat]
  rw [hsel, hg]

/-- Claim C2, witness: a format set offering exactly itags 140 and 251. -/
theorem C2_audio_prefers_251_witness :
    ∃ g : StreamFormat,
      chooseFormat VideoFormat.audio [⟨140, none⟩, ⟨251, none⟩] = Except.ok g ∧
      g.itag = 251 :=
  C2_audio_prefers_251 [⟨140, none⟩, ⟨251, none⟩]
    ⟨⟨140, none⟩, by simp, rfl⟩ ⟨⟨251, none⟩, by simp, rfl⟩

/-- Claim C3, counterexample: on a format set with zero audio-capable
(indeed zero) entries the selector fails, but with the generic
`DownloadError` — the taxonomy of types/errors.ts contains no
`NoFormatAvailableError` class at all, so the claimed error cannot be
produced. -/
theorem C3_no_NoFormatAvailableError :
    chooseFormat VideoFormat.audio [] = Except.error selectionUnavailableError ∧
    chooseFormat VideoFormat.video [] = Except.error selectionUnavailableError ∧
    selectionUnavailableError.name = "DownloadError" ∧
    selectionUnavailableError.code = "DOWNLOAD_ERROR" ∧
    "NoFormatAvailableError" ∉ errorClassNames := by
  exact ⟨rfl, rfl, rfl, rfl, by decide⟩

/-- Claim C3, amended: whenever the format set contains no entry whose
itag is on the priority list of the requested kind — in particular when
it is empty — the selection fails, with the `DownloadError` carrying the
message "Selected quality format not available" (the taxonomy has no
`NoFormatAvailableError`). -/
theorem C3_selector_failure_is_DownloadError (kind : VideoFormat)
    (fmts : List StreamFormat)
    (h : ∀ f ∈ fmts, f.itag ∉ priorities kind) :
    chooseFormat kind fmts = Except.error selectionUnavailableError ∧
    selectionUnavailableError.name = "DownloadError" := by
  have hfind : ((priorities kind).find?
      (fun q => (fmts.map (fun f => f.itag)).contains q)) = none := by
    apply List.find?_eq_none.mpr
    intro q hq hcont
    have hqmem : q ∈ fmts.map (fun f => f.itag) := by simpa using hcont
    obtain ⟨f, hf, hfi⟩ := List.mem_map.mp hqmem
    exact h f hf (by rw [hfi]; exact hq)
  have hsel : selectQuality kind (fmts.map (fun f => f.itag)) =
      fallbackItag kind := by
    simp only [selectQuality]
    rw [hfind]
    rfl
  have hnone : fmts.find? (fun f => f.itag == fallbackItag kind) = none := by
    apply List.find?_eq_none.mpr
    intro f hf hbeq
    have hfi : f.itag = fallbackItag kind := by simpa using hbeq
    exact h f hf (by rw [hfi]; exact fallbackItag_mem_priorities kind)
  refine ⟨?_, rfl⟩
  simp only [chooseFormat]
  rw [hsel, hnone]

/-- Claim C3 amended, witness: a set holding only an off-list itag. -/
theorem C3_selector_failure_is_DownloadError_witness :
    chooseFormat VideoFormat.audio [⟨139, none⟩] =
      Except.error selectionUnavailableError :=
  (C3_selector_failure_is_DownloadError VideoFormat.audio [⟨139, none⟩]
    (by decide)).1

/-- Claim C4, counterexample: for an audio request whose selected format
has no content-length and a 100-second duration, the pipeline substitutes
the estimated total 100·128000/8 = 1600000 bytes and the progress line
computes a percentage against it (50% after 800000 bytes) — it does not
report raw transferred bytes only. -/
theorem C4_estimate_substituted_for_missing_length :
    totalBytesOf VideoFormat.audio none 100 = 1600000 ∧
    (updateProgress 800000 (totalBytesOf VideoFormat.audio none 100)).totalBytes
      = 1600000 ∧
    (updateProgress 800000 (totalBytesOf VideoFormat.audio none 100)).percent
      = 50 := by
  refine ⟨rfl, rfl, ?_⟩
  show (800000 : ℚ) / (1600000 : Nat) * 100 = 50
  norm_num

/-- Claim C4, amended: a percentage is always computed; `totalBytes` is
the parsed content-length when present, and when absent it is substituted
with the estimate durationInSec·bitrate/8 (bitrate 128000 for audio,
512000 for video), against which the percentage is then computed. -/
theorem C4_percentage_always_computed (kind : VideoFormat)
    (cl dur d : Nat) :
    totalBytesOf kind (some cl) dur = cl ∧
    totalBytesOf VideoFormat.audio none dur = 16000 * dur ∧
    totalBytesOf VideoFormat.video none dur = 64000 * dur ∧
    (updateProgress d (totalBytesOf VideoFormat.audio none dur)).percent =
      (d : ℚ) / ((16000 * dur : Nat) : ℚ) * 100 := by
  have h2 : totalBytesOf VideoFormat.audio none dur = 16000 * dur := by
    show dur * 128000 / 8 = 16000 * dur
    omega
  refine ⟨rfl, h2, ?_, ?_⟩
  · show dur * 512000 / 8 = 64000 * dur
    omega
  · rw [h2]
    rfl

/-- Claim C5: the title "A/B?C*D" sanitizes to base name "A-B-C-D"; every
title longer than 200 characters yields a base name that is the
sanitization of its first 200 characters, of length exactly 200; the
empty title yields the default base name "video". -/
theorem C5_sanitization :
    sanitizeTitle "A/B?C*D" = "A-B-C-D" ∧
    (∀ t : String, 200 < t.length →
      sanitizeTitle t = ((t.data.take 200).map sanitizeChar).asString ∧
      (sanitizeTitle t).length = 200) ∧
    sanitizeTitle "" = "video" := by
  refine ⟨by decide, ?_, rfl⟩
  intro t ht
  have hne : t ≠ "" := fun h => absurd (h ▸ ht) (by decide)
  have h1 : sanitizeTitle t = ((t.data.map sanitizeChar).take 200).asString := by
    simp [sanitizeTitle, hne]
  have hlen : 200 < t.data.length := ht
  constructor
  · rw [h1, List.map_take]
  · rw [h1]
    show ((t.data.map sanitizeChar).take 200).length = 200
    rw [List.length_take, List.length_map]
    omega

/-- Claim C5, witness: a 201-character title truncates to length 200. -/
theorem C5_sanitization_witness :
    (sanitizeTitle (String.mk (List.replicate 201 'a'))).length = 200 :=
  (C5_sanitization.2.1 (String.mk (List.replicate 201 'a'))
    (by show 200 < (List.replicate 201 'a').length
        rw [List.length_replicate]
        norm_num)).2

/-- Claim C6, counterexample: for the empty URL the validation helper
constructs the `ValidationError` inside its `try` body, but the `catch`
converts it to the plain boolean `false` — the caller receives a boolean
rejection, no typed error surfaces. -/
theorem C6_empty_url_yields_boolean_false :
    validateYouTubeUrl (fun _ => Except.ok "yt_video") "" = false ∧
    validateYouTubeUrlBody (fun _ => Except.ok "yt_video") "" =
      Except.error (Thrown.typed (ValidationError "URL cannot be empty" none)) :=
  ⟨rfl, rfl⟩

/-- Claim C6, amended: for every empty URL, a `ValidationError` ("URL
cannot be empty") is thrown inside `validateYouTubeUrl` but caught there;
the function returns `false`, so the caller sees a plain boolean
rejection and the typed error never propagates. -/
theorem C6_empty_url_validation_swallowed
    (validate : String → Except Thrown String) :
    validateYouTubeUrlBody validate "" =
      Except.error (Thrown.typed (ValidationError "URL cannot be empty" none)) ∧
    validateYouTubeUrl validate "" = false :=
  ⟨rfl, rfl⟩

/-- In non-debug mode a logging call prints exactly its formatted
message line. -/
theorem logToConsole_false (c : LogEntry) :
    logToConsole false c = [ConsoleLine.message c] := by
  cases hc : c.details <;> simp [logToConsole, hc]

/-- Dropping the extra details payloads from a debug-mode print leaves
exactly the non-debug print of the same entry. -/
theorem filter_logToConsole (c : LogEntry) :
    (logToConsole true c).filter (fun l => !(isDetailsLine l)) =
      logToConsole false c := by
  cases hc : c.details <;> simp [logToConsole, hc, isDetailsLine, List.filter]

/-- Claim C9: two runs on the same sequence of log calls differing only
in the debug flag record identical `logs` state, and their console output
differs only by the additional details payloads: removing the details
lines from the debug run yields exactly the non-debug run, which is one
message line per call. -/
theorem C9_debug_flag_only_adds_details (calls : List LogEntry) :
    (processCalls true calls).1 = (processCalls false calls).1 ∧
    ((processCalls true calls).2.filter (fun l => !(isDetailsLine l))) =
      (processCalls false calls).2 ∧
    (processCalls false calls).2 = calls.map ConsoleLine.message := by
  refine ⟨rfl, ?_, ?_⟩
  · show (consoleOutput true calls).filter (fun l => !(isDetailsLine l)) =
      consoleOutput false calls
    induction calls with
    | nil => rfl
    | cons c cs ih =>
        show ((logToConsole true c ++ consoleOutput true cs).filter
          (fun l => !(isDetailsLine l))) =
          logToConsole false c ++ consoleOutput false cs
        rw [List.filter_append, filter_logToConsole, ih]
  · show consoleOutput false calls = calls.map ConsoleLine.message
    induction calls with
    | nil => rfl
    | cons c cs ih =>
        show logToConsole false c ++ consoleOutput false cs =
          ConsoleLine.message c :: cs.map ConsoleLine.message
        rw [logToConsole_false, ih]
        rfl

/-- Claim C10: the catch clause of `downloadVideo` rethrows any instance
of the typed taxonomy unchanged, and wraps every other thrown value —
plain `Error`s directly, anything else via its stringification — in a
`DownloadError` carrying the original cause; so everything leaving the
pipeline is a `YouTubeDownloaderError`, and non-typed causes always leave
as `DownloadError`. -/
theorem C10_catch_preserves_taxonomy :
    (∀ e : YouTubeDownloaderError, catchWrap (Thrown.typed e) = e) ∧
    (∀ m : String, catchWrap (Thrown.plainError m) =
      DownloadError "Download failed with unknown error" (some m)) ∧
    (∀ s : String, catchWrap (Thrown.other s) =
      DownloadError "Download failed with unknown error" (some s)) ∧
    (∀ t : Thrown, (catchWrap t).name = "DownloadError" ∨
      ∃ e, t = Thrown.typed e ∧ catchWrap t = e) := by
  refine ⟨fun e => rfl, fun m => rfl, fun s => rfl, ?_⟩
  intro t
  cases t with
  | typed e => exact Or.inr ⟨e, rfl, rfl⟩
  | plainError m => exact Or.inl rfl
  | other s => exact Or.inl rfl

end YtDownloader
